import Mathlib

/-
Verification of the GPXSee mapsforge style-rule engine (src/map/mapsforge/style.h)
and the data-file dispatch / elevation post-processing (src/data/data.cpp).

Shallow embedding conventions:
  - interned tag keys (unsigned in C++) are Nat; the wildcard key "*" is interned as 0
    (the code tests `!key`);
  - tag values (QByteArray) are String; the wildcard value is the empty string
    (the code tests `!ba.size()`);
  - qreal elevations use Option ℚ: `none` models NaN (Trackpoint/Waypoint store NaN
    while no elevation is set and hasElevation() tests !isnan);
  - QList/QVector are List; in-place loops over them become List.map / List.filter;
  - the C++ enums Type and Closed are Nat constants, since setType/setClosed combine
    them with a bitwise OR of the underlying ints.
-/

namespace Mapsforge

/-- MapData::Tag: one (key, value) attribute of a map feature. Keys are interned ids,
values are byte strings (mapdata.h collaborator of style.h). -/
structure Tag where
  key : Nat
  value : String
deriving DecidableEq, Repr

namespace StyleDefs

/-- Style::Rule::Filter (style.h, lines 42-93): candidate key ids, candidate values and
the negation flag. -/
structure Filter where
  _keys : List Nat
  _vals : List String
  _neg : Bool
deriving DecidableEq, Repr

namespace Filter

/-- Style::Rule::Filter::keyMatches (style.h, lines 64-75): some candidate key is the
wildcard (0) or equals some tag's key. The outer loop runs over the candidate keys, the
inner loop over the tags, returning true on the first hit. -/
def keyMatches (f : Filter) (tags : List Tag) : Bool :=
  f._keys.any (fun key => tags.any (fun t => key == 0 || key == t.key))

/-- Style::Rule::Filter::valueMatches (style.h, lines 77-88): some candidate value is the
wildcard (empty) or equals some tag's value. -/
def valueMatches (f : Filter) (tags : List Tag) : Bool :=
  f._vals.any (fun ba => tags.any (fun t => ba == "" || ba == t.value))

/-- Style::Rule::Filter::match (style.h, lines 48-56). Named fmatch because `match` is a
Lean keyword. Negated: true when keyMatches fails, otherwise the value of valueMatches;
non-negated: keyMatches AND valueMatches. -/
def fmatch (f : Filter) (tags : List Tag) : Bool :=
  if f._neg then
    if !f.keyMatches tags then true
    else f.valueMatches tags
  else
    f.keyMatches tags && f.valueMatches tags

/-- Style::Rule::Filter::isTautology (style.h, lines 58-61): non-negated, the key list
contains the wildcard key 0 and the value list contains the wildcard (empty) value. -/
def isTautology (f : Filter) : Bool :=
  !f._neg && f._keys.contains 0 && f._vals.contains ""

/-- The spec's wording of a tautological filter, stated for comparison with the code's
Filter.isTautology: per the spec, "a filter is a tautology (always true, droppable) when
both key-set and value-set are pure wildcards", and the always-true reading asks the
filter to be non-negated. Pure wildcard sets: non-empty and every entry the wildcard. -/
def specTautology (f : Filter) : Prop :=
  f._neg = false ∧ f._keys ≠ [] ∧ (∀ k ∈ f._keys, k = 0) ∧
  f._vals ≠ [] ∧ (∀ v ∈ f._vals, v = "")

instance (f : Filter) : Decidable f.specTautology := by
  unfold specTautology; infer_instance

end Filter

/-- Style::Rule::Type enumerator AnyType = 0 (style.h, lines 28-33). -/
def AnyType : Nat := 0

/-- Style::Rule::Type enumerator NodeType = 1. -/
def NodeType : Nat := 1

/-- Style::Rule::Type enumerator WayType = 2. -/
def WayType : Nat := 2

/-- Style::Rule::Type enumerator InvalidType = 3. -/
def InvalidType : Nat := 3

/-- Style::Rule::Closed enumerator AnyClosed = 0 (style.h, lines 35-40). -/
def AnyClosed : Nat := 0

/-- Style::Rule::Closed enumerator YesClosed = 1. -/
def YesClosed : Nat := 1

/-- Style::Rule::Closed enumerator NoClosed = 2. -/
def NoClosed : Nat := 2

/-- The Range class (common/range.h collaborator): an integer interval with min and max
fields; setMin/setMax assign the fields. Style.h stores the rule's zoom range in it. -/
structure Range where
  _min : Int
  _max : Int
deriving DecidableEq, Repr

namespace Range

/-- Range::min accessor. -/
def min (r : Range) : Int := r._min

/-- Range::max accessor. -/
def max (r : Range) : Int := r._max

/-- Range::setMin: assign the lower bound. -/
def setMin (r : Range) (m : Int) : Range := { r with _min := m }

/-- Range::setMax: assign the upper bound. -/
def setMax (r : Range) (m : Int) : Range := { r with _max := m }

/-- Modelled from the spec: Range::contains (common/range.h is not among these sources);
the spec states zoom containment is inclusive at both bounds ("a Rule with range [10,12]
matches at zoom 10 and zoom 12, not at 9 or 13"). -/
def contains (r : Range) (z : Int) : Bool := r._min ≤ z && z ≤ r._max

end Range

/-- Style::Rule (style.h, lines 17-121): type constraint, closed constraint, zoom range
and the filter list. -/
structure Rule where
  _type : Nat
  _closed : Nat
  _zooms : Range
  _filters : List Filter
deriving DecidableEq, Repr

namespace Rule

/-- The Rule() default constructor (style.h, line 19): AnyType, AnyClosed, zooms (0,127),
no filters. -/
def init : Rule := ⟨AnyType, AnyClosed, ⟨0, 127⟩, []⟩

/-- Style::Rule::setType (style.h, lines 95-99): bitwise-OR the declared constraint into
the current one. -/
def setType (r : Rule) (type : Nat) : Rule := { r with _type := type ||| r._type }

/-- Style::Rule::setClosed (style.h, lines 102-106): bitwise-OR the declared constraint
into the current one. -/
def setClosed (r : Rule) (closed : Nat) : Rule := { r with _closed := closed ||| r._closed }

/-- Style::Rule::setMinZoom (style.h, line 100): _zooms.setMin(qMax(zoom, _zooms.min())). -/
def setMinZoom (r : Rule) (zoom : Int) : Rule :=
  { r with _zooms := r._zooms.setMin (Max.max zoom r._zooms.min) }

/-- Style::Rule::setMaxZoom (style.h, line 101): _zooms.setMax(qMin(zoom, _zooms.max())). -/
def setMaxZoom (r : Rule) (zoom : Int) : Rule :=
  { r with _zooms := r._zooms.setMax (Min.min zoom r._zooms.max) }

/-- Style::Rule::addFilter (style.h, lines 107-111): append the filter unless it is a
tautology per Filter::isTautology. -/
def addFilter (r : Rule) (filter : Filter) : Rule :=
  if !filter.isTautology then { r with _filters := r._filters ++ [filter] }
  else r

/-- Modelled from the spec: the body of Style::Rule::match(int zoom, Type, Closed, tags)
lives in style.cpp, which is not among these sources. Per spec section 4.2 the match tests
zoom-range containment first, then type compatibility (AnyType matches everything,
otherwise the narrowed constraint must equal the feature's type, so the bitwise-OR of
NodeType and WayType — InvalidType — matches no pure feature), then closed compatibility
analogously, then all filters (conjunction). -/
def rmatch (r : Rule) (zoom : Int) (type : Nat) (closed : Nat) (tags : List Tag) : Bool :=
  r._zooms.contains zoom
    && (r._type == AnyType || r._type == type)
    && (r._closed == AnyClosed || r._closed == closed)
    && r._filters.all (fun f => f.fmatch tags)

/-- Modelled from the spec: the Rule::match(int zoom, bool closed, tags) overload used by
the paths query (body in style.cpp, not among these sources). Per spec 4.2 the overloads
omit the checks the caller's context already fixes — here the feature type — so this one
tests zoom containment, closed compatibility and the filters. -/
def matchPath (r : Rule) (zoom : Int) (closed : Bool) (tags : List Tag) : Bool :=
  r._zooms.contains zoom
    && (r._closed == AnyClosed || r._closed == (if closed then YesClosed else NoClosed))
    && r._filters.all (fun f => f.fmatch tags)

/-- Modelled from the spec: the rule context used by the pointLabels(zoom) query (body in
style.cpp, not among these sources) — the caller supplies only the zoom, so only
zoom-range containment is tested. -/
def matchZoom (r : Rule) (zoom : Int) : Bool := r._zooms.contains zoom

end Rule

/-- Style::PathRender (style.h, lines 134-164): its owned Rule (via the Render base) and
the z-order. The Qt drawing attributes (colors, pens, dash pattern, brush, flags) are not
observed by any claim and are elided. -/
structure PathRender where
  _rule : Rule
  _zOrder : Int
deriving DecidableEq, Repr

/-- Style::PathRender::zOrder accessor. -/
def PathRender.zOrder (p : PathRender) : Int := p._zOrder

/-- Style::PathRender::rule accessor (from the Render base, style.h line 128). -/
def PathRender.rule (p : PathRender) : Rule := p._rule

/-- Style::TextRender (style.h, lines 188-210): its owned Rule and the label priority.
The Qt drawing attributes (colors, font) and the text key are elided. -/
structure TextRender where
  _rule : Rule
  _priority : Int
deriving DecidableEq, Repr

/-- Style::TextRender::priority accessor. -/
def TextRender.priority (t : TextRender) : Int := t._priority

/-- Style::TextRender::rule accessor (from the Render base). -/
def TextRender.rule (t : TextRender) : Rule := t._rule

end StyleDefs

open StyleDefs

/-- The Style class (style.h, lines 14-302) restricted to the instruction lists the claims
observe: _paths and _pointLabels (the circle, path-label, area-label and symbol lists are
built and queried the same way and are not read by any claim). -/
structure Style where
  _paths : List PathRender
  _pointLabels : List TextRender
deriving DecidableEq, Repr

namespace Style

/-- Modelled from the spec: Style::paths(zoom, closed, tags) (body in style.cpp, not among
these sources). Per spec 4.5 each query performs a linear scan of its instruction list,
testing each instruction's owned Rule against the given context, and returns all matches
in list order. -/
def paths (s : Style) (zoom : Int) (closed : Bool) (tags : List Tag) : List PathRender :=
  s._paths.filter (fun p => p._rule.matchPath zoom closed tags)

/-- Modelled from the spec: Style::pointLabels(zoom) (body in style.cpp, not among these
sources): linear scan of the point-label list, testing each instruction's rule against
the zoom. -/
def pointLabels (s : Style) (zoom : Int) : List TextRender :=
  s._pointLabels.filter (fun t => t._rule.matchZoom zoom)

/-- Modelled from the spec: the state Style::load (style.cpp, not among these sources)
establishes — per the spec's ordering contract (4.5), the compiled path-instruction list
is sorted ascending by z-order and the point-label list ascending by priority, so the
linear-scan queries return matches in that order. -/
def loaded (s : Style) : Prop :=
  List.Pairwise (fun a b => a._zOrder ≤ b._zOrder) s._paths ∧
  List.Pairwise (fun a b => a._priority ≤ b._priority) s._pointLabels

instance (s : Style) : Decidable s.loaded := by
  unfold loaded; infer_instance

end Style

end Mapsforge

/-- A registered file-format parser (the Parser interface of parser.h is an external
collaborator): parsing a file either succeeds (none) or fails, reporting the error line
and error string that Data::Data reads back via errorLine()/errorString(). The file
content is abstract (type F). -/
def FileParser (F : Type) : Type := F → Option (Int × String)

/-- The Data state observed by claim C9 (data.cpp): the validity flag and the error
line/string. The track/route/waypoint containers are handled separately by processData
below. -/
structure DataState where
  _valid : Bool
  _errorLine : Int
  _errorString : String
deriving DecidableEq, Repr

namespace DataState

/-- The fallback loop of Data::Data (data.cpp, lines 146-164): try every registered
parser in turn; the first success yields a valid state (error line 0, empty error
string, as initialized); when all fail, the state is invalid with error line 0 and
error string "Unknown format". The second component records the map keys of the
parsers whose parse() was invoked, in order. -/
def tryEach {F : Type} (file : F) : List (String × FileParser F) → DataState × List String
  | [] => (⟨false, 0, "Unknown format"⟩, [])
  | (k, p) :: rest =>
    match p file with
    | none => (⟨true, 0, ""⟩, [k])
    | some _ =>
      let r := tryEach file rest
      (r.1, k :: r.2)

/-- Data::Data (data.cpp, lines 118-165). openOk/openError model QFile::open and its
error string; suffix is the file suffix lowered; parsers models the registered suffix →
parser map (QMap::find is association-list lookup). When the suffix is registered, only
that parser runs: success makes the state valid, failure copies that parser's error line
and string; otherwise the fallback tryEach runs. The second component records the map
keys of the parsers whose parse() was invoked. The processData call on success touches
only the track/route/waypoint containers, not the fields modelled here. -/
def construct {F : Type} (parsers : List (String × FileParser F)) (openOk : Bool)
    (openError : String) (suffix : String) (file : F) : DataState × List String :=
  if !openOk then (⟨false, 0, openError⟩, [])
  else
    match parsers.lookup suffix with
    | some p =>
      match p file with
      | none => (⟨true, 0, ""⟩, [suffix])
      | some e => (⟨false, e.1, e.2⟩, [suffix])
    | none => tryEach file parsers

end DataState

/-- Coordinates (the Coordinates collaborator class): a lon/lat pair used only as
the argument of the DEM lookup. The doubles are modelled as rationals; no claim computes
with them. -/
structure Coordinates where
  lon : ℚ
  lat : ℚ
deriving DecidableEq, Repr

/-- A track point, route waypoint or standalone waypoint (the Trackpoint and Waypoint
collaborator classes agree on the members processData touches): coordinates and an
optional elevation. The C++ elevation is a qreal that is NaN while unset
(hasElevation() = !isnan(elevation)); NaN is modelled as none, so hasElevation is
Option.isSome and setElevation(e) with a non-NaN e stores some e. -/
structure GeoPoint where
  coordinates : Coordinates
  elevation : Option ℚ
deriving DecidableEq, Repr

namespace DataState

/-- The per-point body of the three loops of Data::processData (data.cpp, lines 86-93,
99-105 and 109-114, identical): when the point has no elevation or DEM use is enabled,
look the coordinates up in the DEM (dem models DEM::elevation, returning none for NaN)
and store the result unless it is NaN; otherwise leave the point alone. -/
def processPoint (useDEM : Bool) (dem : Coordinates → Option ℚ) (p : GeoPoint) : GeoPoint :=
  if !p.elevation.isSome || useDEM then
    match dem p.coordinates with
    | some elevation => { p with elevation := some elevation }
    | none => p
  else p

/-- Data::processData (data.cpp, lines 80-116): apply the elevation fixup to every track
point of every segment of every track, to every waypoint of every route, and to every
standalone waypoint. The static Data::_useDEM flag (set by Data::useDEM, lines 202-205)
is the useDEM argument; DEM::elevation is the dem argument. The Track/Route wrappers
appended to _tracks/_routes copy the processed data and are not modelled separately. -/
def processData (useDEM : Bool) (dem : Coordinates → Option ℚ)
    (trackData : List (List (List GeoPoint))) (routeData : List (List GeoPoint))
    (waypoints : List GeoPoint) :
    List (List (List GeoPoint)) × List (List GeoPoint) × List GeoPoint :=
  (trackData.map (fun track => track.map (fun segment => segment.map
      (processPoint useDEM dem))),
   routeData.map (fun route => route.map (processPoint useDEM dem)),
   waypoints.map (processPoint useDEM dem))

/-- The elevation frame condition claim C10 asserts between an input point and its
processed image: an existing elevation survives when DEM use is off, and a NaN DEM
lookup never changes the elevation. -/
def elevationFrame (useDEM : Bool) (dem : Coordinates → Option ℚ)
    (p q : GeoPoint) : Prop :=
  (p.elevation.isSome ∧ useDEM = false → q.elevation = p.elevation) ∧
  (dem p.coordinates = none → q.elevation = p.elevation)

end DataState

/-
Helper lemmas shared by the claim theorems.
-/

namespace Mapsforge.StyleDefs.Filter

/-- keyMatches is false on the empty tag vector: the inner loop over the tags never runs. -/
theorem keyMatches_nil (f : Filter) : f.keyMatches [] = false := by
  simp [keyMatches]

/-- valueMatches is false on the empty tag vector. -/
theorem valueMatches_nil (f : Filter) : f.valueMatches [] = false := by
  simp [valueMatches]

/-- On the empty tag vector match returns exactly the negation flag. -/
theorem fmatch_nil (f : Filter) : f.fmatch [] = f._neg := by
  cases hn : f._neg <;>
    simp [fmatch, hn, keyMatches_nil, valueMatches_nil]

end Mapsforge.StyleDefs.Filter

open Mapsforge Mapsforge.StyleDefs

/-- Claim C1: as stated the claim fails on the code. The non-negated filter whose key set
is [0] (the wildcard key) and whose value set is [""] (the wildcard value) returns false
from match on the empty tag vector, because keyMatches iterates over the tags and finds
none. -/
theorem C1_wildcard_filter_empty_counterexample :
    0 ∈ (StyleDefs.Filter.mk [0] [""] false)._keys ∧ "" ∈ (StyleDefs.Filter.mk [0] [""] false)._vals ∧
    Filter.fmatch ⟨[0], [""], false⟩ [] = false := by
  decide

/-- Claim C1 (amended): for every Filter whose key set contains the wildcard key and whose
value set contains the wildcard value, match returns true on every non-empty tag vector;
on the empty tag vector it returns true exactly when the filter is negated. -/
theorem C1_wildcard_filter_match (f : Filter) (tags : List Tag)
    (hk : 0 ∈ f._keys) (hv : "" ∈ f._vals) :
    (tags ≠ [] → f.fmatch tags = true) ∧ f.fmatch [] = f._neg := by
  constructor
  · intro hne
    obtain ⟨t, ht⟩ := List.exists_mem_of_ne_nil tags hne
    have hkm : f.keyMatches tags = true := by
      unfold Filter.keyMatches
      rw [List.any_eq_true]
      exact ⟨0, hk, by rw [List.any_eq_true]; exact ⟨t, ht, by simp⟩⟩
    have hvm : f.valueMatches tags = true := by
      unfold Filter.valueMatches
      rw [List.any_eq_true]
      exact ⟨"", hv, by rw [List.any_eq_true]; exact ⟨t, ht, by simp⟩⟩
    cases hn : f._neg <;> simp [Filter.fmatch, hn, hkm, hvm]
  · exact Filter.fmatch_nil f

/-- Witness for the amended C1 at a concrete filter and tag vector. -/
theorem C1_wildcard_filter_match_witness :
    0 ∈ (StyleDefs.Filter.mk [0] [""] false)._keys ∧ "" ∈ (StyleDefs.Filter.mk [0] [""] false)._vals ∧
    Filter.fmatch ⟨[0], [""], false⟩ [⟨1, "x"⟩] = true :=
  ⟨by decide, by decide,
    (C1_wildcard_filter_match ⟨[0], [""], false⟩ [⟨1, "x"⟩] (by decide) (by decide)).1
      (by decide)⟩

/-- Claim C3: a negated filter for which key-match succeeds but value-match fails returns
false from match (the tag combination is excluded). -/
theorem C3_negated_key_hit_value_miss (f : Filter) (tags : List Tag)
    (hn : f._neg = true) (hk : f.keyMatches tags = true)
    (hv : f.valueMatches tags = false) :
    f.fmatch tags = false := by
  simp [Filter.fmatch, hn, hk, hv]

/-- Witness for C3: the negated filter highway=primary-style (keys [5], values "a")
against a tag with the key present but value "b". -/
theorem C3_negated_key_hit_value_miss_witness :
    Filter.fmatch ⟨[5], ["a"], true⟩ [⟨5, "b"⟩] = false :=
  C3_negated_key_hit_value_miss ⟨[5], ["a"], true⟩ [⟨5, "b"⟩] rfl (by decide) (by decide)

/-- Claim C5: as stated the claim fails on the code. The negated filter with key set [0]
(the wildcard) and value set ["a"], matched against the tag vector [(5, "b")]: no
candidate key occurs as a tag key, yet the wildcard key makes key-match succeed, so
match returns valueMatches, which is false. -/
theorem C5_negated_wildcard_counterexample :
    (∀ k ∈ (StyleDefs.Filter.mk [0] ["a"] true)._keys, ∀ t ∈ [Tag.mk 5 "b"], k ≠ t.key) ∧
    Filter.fmatch ⟨[0], ["a"], true⟩ [⟨5, "b"⟩] = false := by
  decide

/-- Claim C5 (amended): for a negated filter and a tag vector in which no candidate key
occurs as a tag key, match returns true regardless of the declared value set, provided
the wildcard key plays no role (the key set does not contain it, or the tag vector is
empty). -/
theorem C5_negated_absent_key (f : Filter) (tags : List Tag) (hn : f._neg = true)
    (habsent : ∀ k ∈ f._keys, ∀ t ∈ tags, k ≠ t.key)
    (hwild : 0 ∉ f._keys ∨ tags = []) :
    f.fmatch tags = true := by
  have hkm : f.keyMatches tags = false := by
    rw [Bool.eq_false_iff]
    intro hkmT
    rw [Filter.keyMatches, List.any_eq_true] at hkmT
    obtain ⟨k, hkmem, hinner⟩ := hkmT
    rw [List.any_eq_true] at hinner
    obtain ⟨t, htmem, hkt⟩ := hinner
    rw [Bool.or_eq_true, beq_iff_eq, beq_iff_eq] at hkt
    rcases hkt with h0 | hkey
    · subst h0
      rcases hwild with hw | hw
      · exact hw hkmem
      · subst hw
        exact absurd htmem (List.not_mem_nil t)
    · exact habsent k hkmem t htmem hkey
  simp [Filter.fmatch, hn, hkm]

/-- Witness for the amended C5 at a concrete filter and tag vector. -/
theorem C5_negated_absent_key_witness :
    Filter.fmatch ⟨[7], ["a"], true⟩ [⟨5, "b"⟩] = true :=
  C5_negated_absent_key ⟨[7], ["a"], true⟩ [⟨5, "b"⟩] rfl (by decide)
    (Or.inl (by decide))

/-- Claim C8: on the empty tag vector both keyMatches and valueMatches return false, so
match returns true for a negated filter and false for a non-negated one, regardless of
wildcard entries. -/
theorem C8_empty_tags_match_is_neg (f : Filter) :
    f.keyMatches [] = false ∧ f.valueMatches [] = false ∧ f.fmatch [] = f._neg :=
  ⟨Filter.keyMatches_nil f, Filter.valueMatches_nil f, Filter.fmatch_nil f⟩

/-- Claim C2: composing a child rule declared with Type=WayType under a parent already
narrowed to Type=NodeType — setType bitwise-ORs the declared constraint into the
parent's — yields the constraint InvalidType, under which match returns false both for
a pure node feature and for a pure way feature. -/
theorem C2_node_way_composition_matches_nothing (parent : Rule)
    (hp : parent._type = NodeType) (zoom : Int) (closed : Nat) (tags : List Tag)
    (t : Nat) (ht : t = NodeType ∨ t = WayType) :
    (parent.setType WayType).rmatch zoom t closed tags = false := by
  have htype : (parent.setType WayType)._type = 3 := by
    show WayType ||| parent._type = 3
    rw [hp]
    decide
  have hcheck : (((parent.setType WayType)._type == AnyType) ||
      ((parent.setType WayType)._type == t)) = false := by
    rw [htype]
    rcases ht with h | h <;> subst h <;> decide
  unfold Rule.rmatch
  rw [hcheck]
  simp

/-- Witness for C2: the default rule narrowed to NodeType then composed with WayType
matches neither feature type at a concrete zoom. -/
theorem C2_node_way_composition_witness :
    ((Rule.init.setType NodeType).setType WayType).rmatch 5 NodeType AnyClosed [] =
      false ∧
    ((Rule.init.setType NodeType).setType WayType).rmatch 5 WayType AnyClosed [] =
      false :=
  ⟨C2_node_way_composition_matches_nothing (Rule.init.setType NodeType) (by decide) 5
      AnyClosed [] NodeType (Or.inl rfl),
   C2_node_way_composition_matches_nothing (Rule.init.setType NodeType) (by decide) 5
      AnyClosed [] WayType (Or.inr rfl)⟩

/-- Claim C4: for a loaded style — load leaves the path list sorted ascending by z-order
and the point-label list ascending by priority — the paths query returns its matches in
non-decreasing z-order and the pointLabels query returns its matches in non-decreasing
priority, both being linear-scan filters of their lists. -/
theorem C4_query_ordering (s : Style) (hs : s.loaded) (zoom : Int) (closed : Bool)
    (tags : List Tag) :
    List.Pairwise (fun a b => a._zOrder ≤ b._zOrder) (s.paths zoom closed tags) ∧
    List.Pairwise (fun a b => a._priority ≤ b._priority) (s.pointLabels zoom) :=
  ⟨List.Pairwise.sublist (List.filter_sublist _) hs.1,
   List.Pairwise.sublist (List.filter_sublist _) hs.2⟩

/-- Witness for C4 on a concrete two-path, one-label style. -/
theorem C4_query_ordering_witness :
    (Style.mk [⟨Rule.init, 1⟩, ⟨Rule.init, 2⟩] [⟨Rule.init, 3⟩]).loaded ∧
    List.Pairwise (fun a b => a._zOrder ≤ b._zOrder)
      ((Style.mk [⟨Rule.init, 1⟩, ⟨Rule.init, 2⟩] [⟨Rule.init, 3⟩]).paths 5 true []) ∧
    List.Pairwise (fun a b => a._priority ≤ b._priority)
      ((Style.mk [⟨Rule.init, 1⟩, ⟨Rule.init, 2⟩] [⟨Rule.init, 3⟩]).pointLabels 5) :=
  ⟨by decide,
   (C4_query_ordering (Style.mk [⟨Rule.init, 1⟩, ⟨Rule.init, 2⟩] [⟨Rule.init, 3⟩])
      (by decide) 5 true []).1,
   (C4_query_ordering (Style.mk [⟨Rule.init, 1⟩, ⟨Rule.init, 2⟩] [⟨Rule.init, 3⟩])
      (by decide) 5 true []).2⟩

/-- Claim C6: setMinZoom replaces the minimum by max(z, old min), so it never decreases
it and leaves the maximum alone; setMaxZoom replaces the maximum by min(z, old max), so
it never increases it and leaves the minimum alone — the new range is the intersection
of the old range with the declared bound — and a default-constructed rule starts with
the full range [0,127]. -/
theorem C6_zoom_narrowing (r : Rule) (z : Int) :
    (r.setMinZoom z)._zooms._min = Max.max z r._zooms._min ∧
    r._zooms._min ≤ (r.setMinZoom z)._zooms._min ∧
    (r.setMinZoom z)._zooms._max = r._zooms._max ∧
    (r.setMaxZoom z)._zooms._max = Min.min z r._zooms._max ∧
    (r.setMaxZoom z)._zooms._max ≤ r._zooms._max ∧
    (r.setMaxZoom z)._zooms._min = r._zooms._min ∧
    Rule.init._zooms = ⟨0, 127⟩ := by
  refine ⟨rfl, ?_, rfl, rfl, ?_, rfl, rfl⟩
  · exact le_max_right z r._zooms._min
  · exact min_le_right z r._zooms._max

/-- Claim C7: as stated the claim fails on the code. The non-negated filter with key set
[0, 5] and value set [""] is not a tautology by the spec's pure-wildcard wording (5 is
not the wildcard), yet addFilter drops it, because the code's isTautology only asks the
key set and value set to CONTAIN the wildcards. -/
theorem C7_addFilter_counterexample :
    ¬ StyleDefs.Filter.specTautology ⟨[0, 5], [""], false⟩ ∧
    (Rule.init.addFilter ⟨[0, 5], [""], false⟩)._filters = [] := by
  decide

/-- Claim C7 (amended): addFilter drops a filter exactly when it is non-negated and its
key set contains the wildcard key and its value set contains the wildcard value (the
code's isTautology condition); every other filter is appended to the rule's filter
list. -/
theorem C7_addFilter_stores (r : Rule) (f : StyleDefs.Filter) :
    (r.addFilter f)._filters =
      if f._neg = false ∧ 0 ∈ f._keys ∧ "" ∈ f._vals then r._filters
      else r._filters ++ [f] := by
  have hiff : f.isTautology = true ↔
      (f._neg = false ∧ 0 ∈ f._keys ∧ "" ∈ f._vals) := by
    simp [Filter.isTautology, and_assoc]
  by_cases h : f._neg = false ∧ 0 ∈ f._keys ∧ "" ∈ f._vals
  · have ht : f.isTautology = true := hiff.2 h
    simp [Rule.addFilter, ht, h]
  · have ht : f.isTautology = false :=
      Bool.eq_false_iff.2 (fun hT => h (hiff.1 hT))
    simp [Rule.addFilter, ht, h]

/-- Helper for C9: when every registered parser fails on the file, the fallback loop
produces an invalid state with error line 0 and error string "Unknown format", after
invoking every parser in map order. -/
theorem DataState.tryEach_all_fail {F : Type} (file : F)
    (ps : List (String × FileParser F)) (h : ∀ kp ∈ ps, kp.2 file ≠ none) :
    DataState.tryEach file ps =
      (⟨false, 0, "Unknown format"⟩, ps.map Prod.fst) := by
  induction ps with
  | nil => rfl
  | cons kp rest ih =>
    obtain ⟨k, p⟩ := kp
    cases hpf : p file with
    | none => exact absurd hpf (h (k, p) (List.mem_cons_self _ _))
    | some e =>
      have hrest := ih (fun kp hm => h kp (List.mem_cons_of_mem _ hm))
      simp [DataState.tryEach, hpf, hrest]

/-- Claim C9: when the file suffix is registered, only that parser's parse is invoked —
on success the data is valid with the initial error fields, on failure it stays invalid
with that parser's error line and string; the fallback over all registered parsers runs
only when the suffix is not registered, and when every parser fails it leaves error
line 0 and error string "Unknown format" after invoking every parser. -/
theorem C9_suffix_dispatch {F : Type} (parsers : List (String × FileParser F))
    (suffix : String) (file : F) :
    (∀ p, parsers.lookup suffix = some p →
      (DataState.construct parsers true "" suffix file).2 = [suffix] ∧
      (p file = none →
        (DataState.construct parsers true "" suffix file).1 = ⟨true, 0, ""⟩) ∧
      (∀ l s, p file = some (l, s) →
        (DataState.construct parsers true "" suffix file).1 = ⟨false, l, s⟩)) ∧
    (parsers.lookup suffix = none →
      (∀ kp ∈ parsers, kp.2 file ≠ none) →
      (DataState.construct parsers true "" suffix file).1 =
        ⟨false, 0, "Unknown format"⟩ ∧
      (DataState.construct parsers true "" suffix file).2 = parsers.map Prod.fst) := by
  constructor
  · intro p hp
    refine ⟨?_, ?_, ?_⟩
    · cases hpf : p file with
      | none => simp [DataState.construct, hp, hpf]
      | some e => simp [DataState.construct, hp, hpf]
    · intro hpf
      simp [DataState.construct, hp, hpf]
    · intro l s hpf
      simp [DataState.construct, hp, hpf]
  · intro hnone hall
    have hfb := DataState.tryEach_all_fail file parsers hall
    constructor <;> simp [DataState.construct, hnone, hfb]

/-- Witness for C9: a one-parser registry whose gpx parser fails at line 3, a gpx file
(suffix registered: that parser's error is reported and only it runs), and a registry
not containing the suffix (fallback runs, every parser fails, "Unknown format"). -/
theorem C9_suffix_dispatch_witness :
    (DataState.construct [("gpx", fun _ => some (3, "bad gpx"))] true "" "gpx" ()).1 =
      ⟨false, 3, "bad gpx"⟩ ∧
    (DataState.construct [("gpx", fun _ => some (3, "bad gpx"))] true "" "gpx" ()).2 =
      ["gpx"] ∧
    (DataState.construct [("tcx", fun _ => some (1, "x"))] true "" "gpx" ()).1 =
      ⟨false, 0, "Unknown format"⟩ ∧
    (DataState.construct [("tcx", fun _ => some (1, "x"))] true "" "gpx" ()).2 =
      ["tcx"] := by
  refine ⟨?_, ?_, ?_, ?_⟩
  · exact ((C9_suffix_dispatch [("gpx", fun _ => some (3, "bad gpx"))] "gpx" ()).1
      _ rfl).2.2 3 "bad gpx" rfl
  · exact ((C9_suffix_dispatch [("gpx", fun _ => some (3, "bad gpx"))] "gpx" ()).1
      _ rfl).1
  · exact ((C9_suffix_dispatch [("tcx", fun _ => some (1, "x"))] "gpx" ()).2
      rfl (by intro kp hm; rw [List.mem_singleton] at hm; subst hm; simp)).1
  · exact ((C9_suffix_dispatch [("tcx", fun _ => some (1, "x"))] "gpx" ()).2
      rfl (by intro kp hm; rw [List.mem_singleton] at hm; subst hm; simp)).2

/-- Helper for C10: the per-point elevation fixup satisfies the frame condition — an
existing elevation survives when DEM use is off, and a NaN DEM result changes nothing. -/
theorem DataState.processPoint_frame (useDEM : Bool) (dem : Coordinates → Option ℚ)
    (p : GeoPoint) :
    DataState.elevationFrame useDEM dem p (DataState.processPoint useDEM dem p) := by
  constructor
  · rintro ⟨hsome, hu⟩
    subst hu
    simp [DataState.processPoint, hsome]
  · intro hdem
    unfold DataState.processPoint
    split
    · rw [hdem]
    · rfl

/-- Helper for C10: mapping a function related to the identity pointwise produces a
Forall₂-related list. -/
theorem forall2_map_of_mem {α β : Type} {R : α → β → Prop} {f : α → β} (l : List α)
    (h : ∀ x ∈ l, R x (f x)) : List.Forall₂ R l (l.map f) := by
  rw [List.forall₂_map_right_iff]
  exact List.forall₂_same.2 h

/-- Claim C10: processData relates every track point (through tracks and segments),
every route waypoint and every standalone waypoint to its processed image by the
elevation frame condition: a point that already has an elevation keeps it unchanged
when DEM use is disabled, and a NaN DEM lookup (modelled as none) never modifies a
point's elevation in any case. -/
theorem C10_processData_elevation_frame (useDEM : Bool)
    (dem : Coordinates → Option ℚ) (trackData : List (List (List GeoPoint)))
    (routeData : List (List GeoPoint)) (waypoints : List GeoPoint) :
    List.Forall₂ (List.Forall₂ (List.Forall₂ (DataState.elevationFrame useDEM dem)))
      trackData
      (DataState.processData useDEM dem trackData routeData waypoints).1 ∧
    List.Forall₂ (List.Forall₂ (DataState.elevationFrame useDEM dem))
      routeData
      (DataState.processData useDEM dem trackData routeData waypoints).2.1 ∧
    List.Forall₂ (DataState.elevationFrame useDEM dem)
      waypoints
      (DataState.processData useDEM dem trackData routeData waypoints).2.2 := by
  refine ⟨?_, ?_, ?_⟩
  · exact forall2_map_of_mem trackData (fun track _ =>
      forall2_map_of_mem track (fun segment _ =>
        forall2_map_of_mem segment (fun p _ =>
          DataState.processPoint_frame useDEM dem p)))
  · exact forall2_map_of_mem routeData (fun route _ =>
      forall2_map_of_mem route (fun p _ =>
        DataState.processPoint_frame useDEM dem p))
  · exact forall2_map_of_mem waypoints (fun p _ =>
      DataState.processPoint_frame useDEM dem p)
